import Mathlib

/-!
Verification of the JSON-RPC / MCP dispatcher in
`src/store-mcp-server/main.go` (repository vishalk17/mcp-casdoor).

The Go code is shallowly embedded: JSON values decoded by `encoding/json`
become the inductive `JsonVal` (a Go `interface{}` holding a decoded JSON
value); the request/response envelope structs become Lean structures with
`Option` for pointer / omitempty / absent fields; `json.Unmarshal` into the
typed parameter structs (`InitializeParams`, `CallToolParams`) becomes an
`Except String _` decoder that mirrors Go's success/failure behaviour
(a JSON `null` leaves the zero value, a missing field leaves the zero
value, a present field of the wrong JSON kind is a type error, a
non-object non-null document is a type error, and `Unmarshal` of absent
bytes fails with "unexpected end of JSON input"); field names are matched
exactly, as every claim only exercises exact-case keys. The shared
`initialized` flag of `MCPServer` is threaded explicitly: `handleRequest`
returns the response together with the post-state.
-/

/-- A decoded JSON value, as produced by Go's `encoding/json` into an
`interface{}`. Numbers are modelled as integers (no claim involves
fractional numbers). -/
inductive JsonVal where
  | null : JsonVal
  | bool (b : Bool) : JsonVal
  | num (n : Int) : JsonVal
  | str (s : String) : JsonVal
  | arr (elems : List JsonVal) : JsonVal
  | obj (fields : List (String × JsonVal)) : JsonVal

/-- Last binding of a key in a decoded JSON object (Go's decoder lets a
later duplicate key overwrite an earlier one); `none` when the key is
absent or the value is not an object. -/
def JsonVal.getField : JsonVal → String → Option JsonVal
  | .obj fields, key => ((fields.filter (fun f => f.1 = key)).getLast?).map (fun f => f.2)
  | _, _ => none

/-- Go struct `JSONRPCRequest` after `json.Decoder.Decode`: `ID` is an
`interface{}` (`none` models Go `nil`, i.e. the field was absent or JSON
`null`); `Params` is a `json.RawMessage` (`none` models the nil raw
message of an absent field, `some v` a present payload, including an
explicit JSON `null`). -/
structure JSONRPCRequest where
  jsonrpc : String
  id : Option JsonVal
  method : String
  params : Option JsonVal

/-- Go struct `RPCError`. -/
structure RPCError where
  code : Int
  message : String
  data : Option JsonVal

/-- Go struct `InitializeParams` (after unmarshalling). -/
structure InitializeParams where
  protocolVersion : String
  capabilitiesExperimental : Option (List (String × JsonVal))
  capabilitiesSampling : Option (List (String × JsonVal))
  clientInfoName : String
  clientInfoVersion : String

/-- Go struct `ToolsCapability`. -/
structure ToolsCapability where
  listChanged : Bool

/-- Go struct `ServerCapabilities` (`Tools` is a pointer, `Experimental`
a nil-able map). -/
structure ServerCapabilities where
  tools : Option ToolsCapability
  experimental : Option (List (String × JsonVal))

/-- Go struct `ServerInfo`. -/
structure ServerInfo where
  name : String
  version : String

/-- Go struct `InitializeResult`. -/
structure InitializeResult where
  protocolVersion : String
  capabilities : ServerCapabilities
  serverInfo : ServerInfo

/-- Go struct `Property` of a tool input schema. -/
structure SchemaProperty where
  type : String
  description : String
  enum : List String

/-- Go struct `InputSchema`. -/
structure InputSchema where
  type : String
  properties : List (String × SchemaProperty)
  required : List String

/-- Go struct `Tool`. -/
structure Tool where
  name : String
  description : String
  inputSchema : InputSchema

/-- Go struct `ToolsListResult`. -/
structure ToolsListResult where
  tools : List Tool

/-- Go struct `CallToolParams` (after unmarshalling); `arguments` is a
nil-able `map[string]interface{}`. -/
structure CallToolParams where
  name : String
  arguments : Option (List (String × JsonVal))

/-- Go struct `Content`. -/
structure Content where
  type : String
  text : String

/-- Go struct `CallToolResult`. -/
structure CallToolResult where
  content : List Content
  isError : Bool

/-- The typed values the Go code stores in the `interface{}` field
`JSONRPCResponse.Result`: one constructor per Go type that ever flows
into that field (`map[string]string{}` for ping becomes `emptyMap`). -/
inductive RPCResult where
  | initRes (r : InitializeResult) : RPCResult
  | toolsList (r : ToolsListResult) : RPCResult
  | callTool (r : CallToolResult) : RPCResult
  | emptyMap : RPCResult

/-- Go struct `JSONRPCResponse`; `Result` and `Error` are nil-able. -/
structure JSONRPCResponse where
  jsonrpc : String
  id : Option JsonVal
  result : Option RPCResult
  error : Option RPCError

/-- Go struct `MCPServer` (the `sync.RWMutex` only guards the flag and is
not part of the sequential state). -/
structure MCPServer where
  initialized : Bool

/-- `NewMCPServer()`: the zero value has `initialized = false`. -/
def NewMCPServer : MCPServer := { initialized := false }

/-- `(*MCPServer).sendError`. -/
def sendError (id : Option JsonVal) (code : Int) (message : String)
    (data : Option JsonVal) : JSONRPCResponse :=
  { jsonrpc := "2.0"
    id := id
    result := none
    error := some { code := code, message := message, data := data } }

/-- Go `json.Unmarshal` of a present JSON value into a `string` struct
field: absent or `null` leaves the zero value `""`; a JSON string is
taken; any other kind is an `UnmarshalTypeError`. -/
def unmarshalStringField : Option JsonVal → Except String String
  | none => .ok ""
  | some .null => .ok ""
  | some (.str s) => .ok s
  | some _ => .error "cannot unmarshal value into Go field of type string"

/-- Go `json.Unmarshal` into a `map[string]interface{}` struct field:
absent or `null` leaves the nil map; an object is taken; any other kind
is an `UnmarshalTypeError`. -/
def unmarshalMapField : Option JsonVal → Except String (Option (List (String × JsonVal)))
  | none => .ok none
  | some .null => .ok none
  | some (.obj fields) => .ok (some fields)
  | some _ => .error "cannot unmarshal value into Go field of type map"

/-- Go `json.Unmarshal` of the `clientInfo` member into `ClientInfo`:
yields the pair (name, version). -/
def unmarshalClientInfo : Option JsonVal → Except String (String × String)
  | none => .ok ("", "")
  | some .null => .ok ("", "")
  | some (.obj fields) => do
      let n ← unmarshalStringField ((JsonVal.obj fields).getField "name")
      let v ← unmarshalStringField ((JsonVal.obj fields).getField "version")
      .ok (n, v)
  | some _ => .error "cannot unmarshal value into Go struct ClientInfo"

/-- Go `json.Unmarshal` of the `capabilities` member into
`ClientCapabilities`: yields the pair (experimental, sampling). -/
def unmarshalClientCapabilities : Option JsonVal →
    Except String (Option (List (String × JsonVal)) × Option (List (String × JsonVal)))
  | none => .ok (none, none)
  | some .null => .ok (none, none)
  | some (.obj fields) => do
      let e ← unmarshalMapField ((JsonVal.obj fields).getField "experimental")
      let s ← unmarshalMapField ((JsonVal.obj fields).getField "sampling")
      .ok (e, s)
  | some _ => .error "cannot unmarshal value into Go struct ClientCapabilities"

/-- `json.Unmarshal(params, &initParams)` for `InitializeParams`:
a nil raw message (absent `params` field) is "unexpected end of JSON
input"; a JSON `null` document succeeds leaving the zero value; an object
document decodes each known field (unknown keys are ignored); any other
document kind is an `UnmarshalTypeError`. -/
def unmarshalInitializeParams : Option JsonVal → Except String InitializeParams
  | none => .error "unexpected end of JSON input"
  | some .null =>
      .ok { protocolVersion := "", capabilitiesExperimental := none
            capabilitiesSampling := none, clientInfoName := "", clientInfoVersion := "" }
  | some (.obj fields) => do
      let pv ← unmarshalStringField ((JsonVal.obj fields).getField "protocolVersion")
      let caps ← unmarshalClientCapabilities ((JsonVal.obj fields).getField "capabilities")
      let ci ← unmarshalClientInfo ((JsonVal.obj fields).getField "clientInfo")
      .ok { protocolVersion := pv, capabilitiesExperimental := caps.1
            capabilitiesSampling := caps.2, clientInfoName := ci.1, clientInfoVersion := ci.2 }
  | some _ => .error "cannot unmarshal value into Go struct InitializeParams"

/-- `json.Unmarshal(params, &callParams)` for `CallToolParams`, with the
same Go unmarshalling conventions as `unmarshalInitializeParams`. -/
def unmarshalCallToolParams : Option JsonVal → Except String CallToolParams
  | none => .error "unexpected end of JSON input"
  | some .null => .ok { name := "", arguments := none }
  | some (.obj fields) => do
      let n ← unmarshalStringField ((JsonVal.obj fields).getField "name")
      let args ← unmarshalMapField ((JsonVal.obj fields).getField "arguments")
      .ok { name := n, arguments := args }
  | some _ => .error "cannot unmarshal value into Go struct CallToolParams"

/-- The constant `InitializeResult` built in `handleInitialize`
(main.go lines 170-181). -/
def initializeResultValue : InitializeResult :=
  { protocolVersion := "2024-11-05"
    capabilities :=
      { tools := some { listChanged := false }
        experimental := none }
    serverInfo :=
      { name := "indian-store-mcp-server"
        version := "1.0.0" } }

/-- `(*MCPServer).handleInitialize` (main.go lines 162-192): parse
failure returns "Invalid params" with the state untouched; success sets
`initialized := true` and returns the fixed result. -/
def handleInitialize (s : MCPServer) (id : Option JsonVal) (params : Option JsonVal) :
    JSONRPCResponse × MCPServer :=
  match unmarshalInitializeParams params with
  | .error e => (sendError id (-32602) "Invalid params" (some (.str e)), s)
  | .ok _ =>
      ({ jsonrpc := "2.0", id := id
         result := some (.initRes initializeResultValue), error := none },
       { s with initialized := true })

/-- `(*MCPServer).handleToolsList` (main.go lines 194-213). -/
def handleToolsList (id : Option JsonVal) : JSONRPCResponse :=
  { jsonrpc := "2.0"
    id := id
    result := some (.toolsList
      { tools := [
          { name := "list_indian_stores"
            description := "List popular Indian online stores with their services"
            inputSchema := { type := "object", properties := [], required := [] } }] })
    error := none }

/-- The fixed store-list text returned by the `list_indian_stores` tool
(main.go line 232). -/
def storeListText : String :=
  "1. Flipkart - E-commerce platform offering electronics, fashion, home essentials\n2. Amazon India - Global e-commerce platform with wide product range\n3. Reliance Digital - Electronics and appliances retailer\n4. Myntra - Fashion and lifestyle e-commerce platform\n5. Snapdeal - E-commerce platform with various product categories\n6. Tata CLiQ - Digital commerce platform by Tata Group"

/-- `(*MCPServer).handleCallTool` (main.go lines 215-240): parse failure
is "Invalid params"; the name `"list_indian_stores"` yields the fixed
single text block; any other name is "Unknown tool" with the name as
diagnostic data. -/
def handleCallTool (id : Option JsonVal) (params : Option JsonVal) : JSONRPCResponse :=
  match unmarshalCallToolParams params with
  | .error e => sendError id (-32602) "Invalid params" (some (.str e))
  | .ok callParams =>
      if callParams.name = "list_indian_stores" then
        { jsonrpc := "2.0"
          id := id
          result := some (.callTool
            { content := [{ type := "text", text := storeListText }]
              isError := false })
          error := none }
      else
        sendError id (-32601) "Unknown tool" (some (.str callParams.name))

/-- `(*MCPServer).handleRequest` (main.go lines 114-148): the method
switch, returning the response and the post-state.  `notifications/initialized`
returns the zero-value `JSONRPCResponse{}` (the code's "no response"
convention); `tools/list` and `tools/call` are gated on `initialized`. -/
def handleRequest (s : MCPServer) (req : JSONRPCRequest) : JSONRPCResponse × MCPServer :=
  if req.method = "initialize" then
    handleInitialize s req.id req.params
  else if req.method = "notifications/initialized" then
    ({ jsonrpc := "", id := none, result := none, error := none }, s)
  else if req.method = "tools/list" then
    if !s.initialized then (sendError req.id (-32002) "Server not initialized" none, s)
    else (handleToolsList req.id, s)
  else if req.method = "tools/call" then
    if !s.initialized then (sendError req.id (-32002) "Server not initialized" none, s)
    else (handleCallTool req.id req.params, s)
  else if req.method = "ping" then
    ({ jsonrpc := "2.0", id := req.id, result := some .emptyMap, error := none }, s)
  else
    (sendError req.id (-32601) "Method not found" (some (.str req.method)), s)

/-- `(*MCPServer).handleMCPRequest` (main.go lines 243-287), restricted
to the POST body path: the input is the outcome of decoding the body
into a `JSONRPCRequest` (`Except` models decode success/failure); the
output's first component is the response envelope the handler encodes to
the body — the Go code encodes one on EVERY path, so it is always
`some _`; `none` would model writing no body at all. -/
def handleMCPRequest (s : MCPServer) (body : Except String JSONRPCRequest) :
    Option JSONRPCResponse × MCPServer :=
  match body with
  | .error _ =>
      (some { jsonrpc := "2.0", id := none, result := none
              error := some { code := -32700, message := "Parse error: Invalid JSON", data := none } },
       s)
  | .ok req =>
      let r := handleRequest s req
      (some r.1, r.2)

/-- Run a sequence of requests through the dispatcher, threading the
server state (how the HTTP loop uses one `MCPServer` instance across
requests). -/
def runRequests (s : MCPServer) (reqs : List JSONRPCRequest) : MCPServer :=
  reqs.foldl (fun st r => (handleRequest st r).2) s

/-- A request is a successful `initialize`: the method matches and its
params unmarshal (exactly the condition under which main.go line 184
sets `initialized = true`). -/
def isSuccessfulInit (req : JSONRPCRequest) : Bool :=
  req.method = "initialize" && (unmarshalInitializeParams req.params).toBool

/-- The numeric code of a response's error object, when one is present. -/
def errorCode (resp : JSONRPCResponse) : Option Int :=
  resp.error.map RPCError.code

/-- Go struct `InputSchema` of the second program in
`src/unnamed/part_000` (line 406-408): only a `Type` field. -/
structure V2InputSchema where
  type : String

/-- Go struct `Tool` of the second program in `src/unnamed/part_000`. -/
structure V2Tool where
  name : String
  description : String
  inputSchema : V2InputSchema

/-- Go struct `ToolsListResult` of the second program in
`src/unnamed/part_000`. -/
structure V2ToolsListResult where
  tools : List V2Tool

/-- Go struct `CallToolResult` of the second program in
`src/unnamed/part_000` (lines 419-421): no `IsError` field. -/
structure V2CallToolResult where
  content : List Content

/-- Go struct `ServerCapabilities` of the second program in
`src/unnamed/part_000` (lines 387-389): only the `Tools` pointer. -/
structure V2ServerCapabilities where
  tools : Option ToolsCapability

/-- Go struct `InitializeResult` of the second program in
`src/unnamed/part_000`. -/
structure V2InitializeResult where
  protocolVersion : String
  capabilities : V2ServerCapabilities
  serverInfo : ServerInfo

/-- The typed values the second program in `src/unnamed/part_000` stores
in its response's `interface{}` Result field. -/
inductive V2RPCResult where
  | initRes (r : V2InitializeResult) : V2RPCResult
  | toolsList (r : V2ToolsListResult) : V2RPCResult
  | callTool (r : V2CallToolResult) : V2RPCResult
  | emptyMap : V2RPCResult

/-- Go struct `JSONRPCResponse` of the second program in
`src/unnamed/part_000` (same shape as main.go's). -/
structure V2JSONRPCResponse where
  jsonrpc : String
  id : Option JsonVal
  result : Option V2RPCResult
  error : Option RPCError

/-- `(*MCPServer).sendError` of the second program in
`src/unnamed/part_000` (lines 439-448): no data argument. -/
def v2SendError (id : Option JsonVal) (code : Int) (msg : String) : V2JSONRPCResponse :=
  { jsonrpc := "2.0"
    id := id
    result := none
    error := some { code := code, message := msg, data := none } }

/-- `(*MCPServer).handleRequest` of the second program in
`src/unnamed/part_000` (lines 450-512): `initialize` sets the flag and
returns its fixed result WITHOUT parsing any params; `tools/list` (lines
473-486) and `tools/call` (lines 488-500) have NO initialization check
and return their fixed results unconditionally, in any state; `ping` and
the default arm are as in main.go (the default carries no data). -/
def v2HandleRequest (s : MCPServer) (req : JSONRPCRequest) :
    V2JSONRPCResponse × MCPServer :=
  if req.method = "initialize" then
    ({ jsonrpc := "2.0"
       id := req.id
       result := some (.initRes
         { protocolVersion := "2024-11-05"
           capabilities := { tools := some { listChanged := false } }
           serverInfo := { name := "store-mcp-server", version := "0.002" } })
       error := none },
     { s with initialized := true })
  else if req.method = "tools/list" then
    ({ jsonrpc := "2.0"
       id := req.id
       result := some (.toolsList
         { tools := [
             { name := "list_indian_stores"
               description := "List popular Indian online stores"
               inputSchema := { type := "object" } }] })
       error := none }, s)
  else if req.method = "tools/call" then
    ({ jsonrpc := "2.0"
       id := req.id
       result := some (.callTool
         { content := [
             { type := "text"
               text := "Flipkart, Amazon India, Reliance Digital, Myntra, Snapdeal, Tata CLiQ" }] })
       error := none }, s)
  else if req.method = "ping" then
    ({ jsonrpc := "2.0", id := req.id, result := some .emptyMap, error := none }, s)
  else
    (v2SendError req.id (-32601) "Method not found", s)

/-- The post-state flag after one dispatch: `initialized` becomes true
exactly when it already was, or the request is a successful `initialize`. -/
theorem handleRequest_initialized (s : MCPServer) (req : JSONRPCRequest) :
    ((handleRequest s req).2).initialized = (s.initialized || isSuccessfulInit req) := by
  unfold handleRequest
  by_cases h1 : req.method = "initialize"
  · simp only [h1, if_pos rfl]
    unfold handleInitialize
    cases hu : unmarshalInitializeParams req.params with
    | error e => simp [isSuccessfulInit, h1, hu, Except.toBool]
    | ok p => simp [isSuccessfulInit, h1, hu, Except.toBool]
  · have hs : isSuccessfulInit req = false := by
      simp [isSuccessfulInit, h1]
    rw [hs, Bool.or_false]
    simp only [if_neg h1]
    by_cases h2 : req.method = "notifications/initialized"
    · simp [h2]
    by_cases h3 : req.method = "tools/list"
    · simp [h2, h3]
      split <;> rfl
    by_cases h4 : req.method = "tools/call"
    · simp [h2, h3, h4]
      split <;> rfl
    by_cases h5 : req.method = "ping"
    · simp [h2, h3, h4, h5]
    · simp [h2, h3, h4, h5]

/-- The flag after a run of requests from any start state: true exactly
when it was already true or some request was a successful `initialize`. -/
theorem runRequests_initialized (s : MCPServer) (reqs : List JSONRPCRequest) :
    (runRequests s reqs).initialized = (s.initialized || reqs.any isSuccessfulInit) := by
  induction reqs generalizing s with
  | nil => simp [runRequests]
  | cons r rs ih =>
      have : runRequests s (r :: rs) = runRequests ((handleRequest s r).2) rs := rfl
      rw [this, ih, handleRequest_initialized]
      simp [List.any_cons, Bool.or_assoc]

/-- Echo lemma: `handleCallTool` always copies the request identifier. -/
theorem handleCallTool_id (id params : Option JsonVal) :
    (handleCallTool id params).id = id := by
  unfold handleCallTool
  split
  · rfl
  · split <;> rfl

/-- Echo lemma: `handleInitialize` always copies the request identifier. -/
theorem handleInitialize_id (s : MCPServer) (id params : Option JsonVal) :
    ((handleInitialize s id params).1).id = id := by
  unfold handleInitialize
  cases unmarshalInitializeParams params with
  | error e => rfl
  | ok p => rfl

/-- The main.go dispatcher, unlike the ungated `src/unnamed/part_000`
one, does gate: on its server instance, every `tools/list` or
`tools/call` dispatched before any successful `initialize` returns
exactly the -32002 "Server not initialized" error envelope — no result,
state untouched, handler never ran — and once some preceding request was
a successful `initialize`, neither method ever returns code -32002. -/
theorem main_go_gating_before_init (reqs : List JSONRPCRequest) (req : JSONRPCRequest)
    (hm : req.method = "tools/list" ∨ req.method = "tools/call") :
    (reqs.any isSuccessfulInit = false →
       handleRequest (runRequests NewMCPServer reqs) req =
         (sendError req.id (-32002) "Server not initialized" none,
          runRequests NewMCPServer reqs))
    ∧ (reqs.any isSuccessfulInit = true →
       errorCode (handleRequest (runRequests NewMCPServer reqs) req).1 ≠ some (-32002)) := by
  have hs : (runRequests NewMCPServer reqs).initialized = reqs.any isSuccessfulInit := by
    rw [runRequests_initialized]; rfl
  constructor
  · intro h
    have h0 : (runRequests NewMCPServer reqs).initialized = false := hs.trans h
    rcases hm with hm | hm <;> simp [handleRequest, hm, h0]
  · intro h
    have h1 : (runRequests NewMCPServer reqs).initialized = true := hs.trans h
    rcases hm with hm | hm
    · simp [handleRequest, hm, h1, errorCode, handleToolsList]
    · have hred : handleRequest (runRequests NewMCPServer reqs) req
          = (handleCallTool req.id req.params, runRequests NewMCPServer reqs) := by
        simp [handleRequest, hm, h1]
      rw [hred]
      unfold handleCallTool
      split
      · simp [sendError, errorCode]
      · split <;> simp [sendError, errorCode]

/-- Instance of the main.go gating lemma: on a fresh server,
`tools/list` with identifier 2 returns the -32002 error without touching
the state. -/
theorem main_go_gating_before_init_instance :
    handleRequest (runRequests NewMCPServer [])
        { jsonrpc := "2.0", id := some (.num 2), method := "tools/list", params := none } =
      (sendError (some (.num 2)) (-32002) "Server not initialized" none,
       runRequests NewMCPServer []) :=
  (main_go_gating_before_init []
    { jsonrpc := "2.0", id := some (.num 2), method := "tools/list", params := none }
    (Or.inl rfl)).1 rfl

/-- C2 counterexample: a request that parses fine but carries an
identifier together with the notification method gets back the
zero-value envelope, whose identifier (`none`) differs from the
request's (`some 7`) — the dispatcher does not echo the identifier
there, refuting the claim as universally stated. -/
theorem c2_counterexample :
    (handleRequest { initialized := true }
        { jsonrpc := "2.0", id := some (.num 7), method := "notifications/initialized",
          params := none }).1.id
      ≠ some (.num 7) := by
  intro h
  exact Option.noConfusion h

/-- C2 (amended): for every parsed request whose method is not the
notification method `notifications/initialized` (whose reply is the
zero-value envelope with no identifier), the response identifier equals
the request identifier exactly, including the absent state; and every
input whose bytes fail to parse gets the parse-error response with a
null identifier. -/
theorem c2_id_echoed (s : MCPServer) (req : JSONRPCRequest) (e : String)
    (h : req.method ≠ "notifications/initialized") :
    (handleRequest s req).1.id = req.id
    ∧ (handleMCPRequest s (.error e)).1.map JSONRPCResponse.id = some none := by
  refine ⟨?_, rfl⟩
  unfold handleRequest
  by_cases h1 : req.method = "initialize"
  · rw [if_pos h1]
    exact handleInitialize_id s req.id req.params
  · rw [if_neg h1, if_neg h]
    by_cases h3 : req.method = "tools/list"
    · rw [if_pos h3]
      split
      · rfl
      · rfl
    · rw [if_neg h3]
      by_cases h4 : req.method = "tools/call"
      · rw [if_pos h4]
        split
        · rfl
        · exact handleCallTool_id req.id req.params
      · rw [if_neg h4]
        by_cases h5 : req.method = "ping"
        · rw [if_pos h5]
        · rw [if_neg h5]
          rfl

/-- Witness for C2 (amended): a `ping` with identifier 1 is echoed, and
a parse failure yields a null identifier. -/
theorem c2_id_echoed_witness :
    (handleRequest NewMCPServer
        { jsonrpc := "2.0", id := some (.num 1), method := "ping", params := none }).1.id
      = some (.num 1)
    ∧ (handleMCPRequest NewMCPServer (.error "truncated body")).1.map JSONRPCResponse.id
      = some none :=
  c2_id_echoed NewMCPServer
    { jsonrpc := "2.0", id := some (.num 1), method := "ping", params := none }
    "truncated body" (by decide)

/-- C3 (code-bug evidence): for a `notifications/initialized` request the
HTTP entry point still passes an envelope to the encoder — the
zero-value `JSONRPCResponse{}` — so a body (it serializes as the bytes of
an object whose `jsonrpc` member is the empty string, since that field
has no omitempty tag) IS written, contradicting "writes no response body
at all". -/
theorem c3_notification_body_written :
    (handleMCPRequest { initialized := true }
        (.ok { jsonrpc := "2.0", id := none, method := "notifications/initialized",
               params := none })).1
      = some { jsonrpc := "", id := none, result := none, error := none } := rfl

/-- C4: any `initialize` whose params unmarshal leaves the session ready
with no error and the fixed metadata, from ANY prior state — so repeated
calls are idempotent, and a second call (from the post-state of the
first) returns exactly what the first did. -/
theorem c4_initialize_idempotent (s : MCPServer) (id params : Option JsonVal)
    (h : (unmarshalInitializeParams params).toBool = true) :
    ((handleInitialize s id params).2).initialized = true
    ∧ (handleInitialize s id params).1.error = none
    ∧ (handleInitialize s id params).1.result = some (.initRes initializeResultValue)
    ∧ handleInitialize ((handleInitialize s id params).2) id params
        = handleInitialize s id params := by
  cases hu : unmarshalInitializeParams params with
  | error e => rw [hu] at h; simp [Except.toBool] at h
  | ok p => simp [handleInitialize, hu]

/-- Witness for C4: initializing twice from the fresh state with the
empty-object params. -/
theorem c4_initialize_idempotent_witness :
    ((handleInitialize NewMCPServer none (some (.obj []))).2).initialized = true
    ∧ (handleInitialize NewMCPServer none (some (.obj []))).1.error = none
    ∧ (handleInitialize NewMCPServer none (some (.obj []))).1.result
        = some (.initRes initializeResultValue)
    ∧ handleInitialize ((handleInitialize NewMCPServer none (some (.obj []))).2) none
          (some (.obj []))
        = handleInitialize NewMCPServer none (some (.obj [])) :=
  c4_initialize_idempotent NewMCPServer none (some (.obj [])) rfl

/-- C5: every successful `initialize` returns the one fixed result —
protocol version "2024-11-05", tools capability with listChanged =
false, server name "indian-store-mcp-server" version "1.0.0" — whatever
protocol version or client info the params carried, so any two
successful calls agree. -/
theorem c5_fixed_initialize_result (s t : MCPServer) (id jd params qarams : Option JsonVal)
    (h : (unmarshalInitializeParams params).toBool = true)
    (h₂ : (unmarshalInitializeParams qarams).toBool = true) :
    (handleInitialize s id params).1.result
      = some (.initRes
          { protocolVersion := "2024-11-05"
            capabilities := { tools := some { listChanged := false }, experimental := none }
            serverInfo := { name := "indian-store-mcp-server", version := "1.0.0" } })
    ∧ (handleInitialize s id params).1.result = (handleInitialize t jd qarams).1.result := by
  cases hu : unmarshalInitializeParams params with
  | error e => rw [hu] at h; simp [Except.toBool] at h
  | ok p =>
      cases hv : unmarshalInitializeParams qarams with
      | error e => rw [hv] at h₂; simp [Except.toBool] at h₂
      | ok q => simp [handleInitialize, hu, hv, initializeResultValue]

/-- Witness for C5: a client requesting protocol version "1999-01-01"
and one sending null params get the same fixed result. -/
theorem c5_fixed_initialize_result_witness :
    (handleInitialize NewMCPServer none
        (some (.obj [("protocolVersion", .str "1999-01-01"),
                     ("clientInfo", .obj [("name", .str "some-client")])]))).1.result
      = some (.initRes
          { protocolVersion := "2024-11-05"
            capabilities := { tools := some { listChanged := false }, experimental := none }
            serverInfo := { name := "indian-store-mcp-server", version := "1.0.0" } })
    ∧ (handleInitialize NewMCPServer none
        (some (.obj [("protocolVersion", .str "1999-01-01"),
                     ("clientInfo", .obj [("name", .str "some-client")])]))).1.result
      = (handleInitialize { initialized := true } (some (.num 3)) (some .null)).1.result :=
  c5_fixed_initialize_result NewMCPServer { initialized := true } none (some (.num 3))
    (some (.obj [("protocolVersion", .str "1999-01-01"),
                 ("clientInfo", .obj [("name", .str "some-client")])]))
    (some .null) rfl rfl

/-- C7: `tools/call` on the tool `list_indian_stores` is a constant
function of the arguments: whatever argument mapping the params carry,
the response is the fixed single text content block with the store-list
string, so any two such invocations have identical results. -/
theorem c7_call_tool_deterministic (id id₂ params params₂ : Option JsonVal)
    (cp cp₂ : CallToolParams)
    (hu : unmarshalCallToolParams params = .ok cp)
    (hn : cp.name = "list_indian_stores")
    (hu₂ : unmarshalCallToolParams params₂ = .ok cp₂)
    (hn₂ : cp₂.name = "list_indian_stores") :
    handleCallTool id params
      = { jsonrpc := "2.0", id := id
          result := some (.callTool
            { content := [{ type := "text", text := storeListText }], isError := false })
          error := none }
    ∧ (handleCallTool id params).result = (handleCallTool id₂ params₂).result := by
  constructor
  · simp [handleCallTool, hu, hn]
  · simp [handleCallTool, hu, hn, hu₂, hn₂]

/-- Witness for C7: calling with no arguments and with an arguments
mapping gives the identical fixed result. -/
theorem c7_call_tool_deterministic_witness :
    handleCallTool (some (.num 5)) (some (.obj [("name", .str "list_indian_stores")]))
      = { jsonrpc := "2.0", id := some (.num 5)
          result := some (.callTool
            { content := [{ type := "text", text := storeListText }], isError := false })
          error := none }
    ∧ (handleCallTool (some (.num 5))
          (some (.obj [("name", .str "list_indian_stores")]))).result
      = (handleCallTool none
          (some (.obj [("name", .str "list_indian_stores"),
                       ("arguments", .obj [("city", .str "Pune")])]))).result :=
  c7_call_tool_deterministic (some (.num 5)) none
    (some (.obj [("name", .str "list_indian_stores")]))
    (some (.obj [("name", .str "list_indian_stores"),
                 ("arguments", .obj [("city", .str "Pune")])]))
    { name := "list_indian_stores", arguments := none }
    { name := "list_indian_stores", arguments := some [("city", .str "Pune")] }
    rfl rfl rfl rfl

/-- C9: for every method other than `notifications/initialized`, and
every state and params, the dispatcher's envelope carries the "2.0" tag
and exactly one of a result or an error (their presence flags are
opposite booleans); the notification method alone yields the empty
envelope carrying neither. -/
theorem c9_result_xor_error (s : MCPServer) (req : JSONRPCRequest) :
    (req.method ≠ "notifications/initialized" →
        (handleRequest s req).1.jsonrpc = "2.0"
        ∧ (handleRequest s req).1.result.isSome = !(handleRequest s req).1.error.isSome)
    ∧ (req.method = "notifications/initialized" →
        (handleRequest s req).1.result = none ∧ (handleRequest s req).1.error = none) := by
  constructor
  · intro h
    unfold handleRequest
    by_cases h1 : req.method = "initialize"
    · rw [if_pos h1]
      unfold handleInitialize
      split
      · exact ⟨rfl, rfl⟩
      · exact ⟨rfl, rfl⟩
    · rw [if_neg h1, if_neg h]
      by_cases h3 : req.method = "tools/list"
      · rw [if_pos h3]
        split
        · exact ⟨rfl, rfl⟩
        · exact ⟨rfl, rfl⟩
      · rw [if_neg h3]
        by_cases h4 : req.method = "tools/call"
        · rw [if_pos h4]
          split
          · exact ⟨rfl, rfl⟩
          · refine ⟨?_, ?_⟩ <;>
              (unfold handleCallTool
               split
               · rfl
               · split <;> rfl)
        · rw [if_neg h4]
          by_cases h5 : req.method = "ping"
          · rw [if_pos h5]
            exact ⟨rfl, rfl⟩
          · rw [if_neg h5]
            exact ⟨rfl, rfl⟩
  · intro h
    simp [handleRequest, h]

/-- Witness for C9: the `ping` envelope has the tag and exactly one of
result/error; the notification request has neither. -/
theorem c9_result_xor_error_witness :
    ((handleRequest NewMCPServer
        { jsonrpc := "2.0", id := none, method := "ping", params := none }).1.jsonrpc = "2.0"
      ∧ (handleRequest NewMCPServer
          { jsonrpc := "2.0", id := none, method := "ping", params := none }).1.result.isSome
        = !(handleRequest NewMCPServer
            { jsonrpc := "2.0", id := none, method := "ping", params := none }).1.error.isSome)
    ∧ ((handleRequest NewMCPServer
          { jsonrpc := "2.0", id := none, method := "notifications/initialized",
            params := none }).1.result = none
      ∧ (handleRequest NewMCPServer
          { jsonrpc := "2.0", id := none, method := "notifications/initialized",
            params := none }).1.error = none) :=
  ⟨(c9_result_xor_error NewMCPServer
      { jsonrpc := "2.0", id := none, method := "ping", params := none }).1 (by decide),
   (c9_result_xor_error NewMCPServer
      { jsonrpc := "2.0", id := none, method := "notifications/initialized",
        params := none }).2 rfl⟩

/-- C10 counterexample: the payload consisting of the single member
`protocolVersion` bound to the number 5 is a well-formed JSON object,
yet `initialize` rejects it with -32602 and the session is NOT marked
ready — refuting "any well-formed JSON object payload is accepted". -/
theorem c10_counterexample :
    errorCode (handleInitialize NewMCPServer none
        (some (.obj [("protocolVersion", .num 5)]))).1 = some (-32602)
    ∧ ((handleInitialize NewMCPServer none
        (some (.obj [("protocolVersion", .num 5)]))).2).initialized = false :=
  ⟨rfl, rfl⟩

/-- C10 (amended): `initialize` with the params field entirely absent
fails with -32602 leaving the state untouched, while a JSON object
payload whose recognized members (protocolVersion, capabilities,
clientInfo), where present, have the declared shapes — in particular the
empty object — is accepted and marks the session ready. -/
theorem c10_absent_vs_object_params (s : MCPServer) (id : Option JsonVal) :
    (errorCode (handleInitialize s id none).1 = some (-32602)
      ∧ (handleInitialize s id none).2 = s)
    ∧ ((handleInitialize s id (some (.obj []))).1.error = none
      ∧ ((handleInitialize s id (some (.obj []))).2).initialized = true)
    ∧ (∀ fields : List (String × JsonVal),
        (unmarshalInitializeParams (some (.obj fields))).toBool = true →
          (handleInitialize s id (some (.obj fields))).1.error = none
          ∧ ((handleInitialize s id (some (.obj fields))).2).initialized = true) := by
  refine ⟨⟨rfl, rfl⟩, ⟨rfl, rfl⟩, ?_⟩
  intro fields h
  cases hu : unmarshalInitializeParams (some (.obj fields)) with
  | error e => rw [hu] at h; simp [Except.toBool] at h
  | ok p => simp [handleInitialize, hu]

/-- Witness for C10 (amended): a one-member object with a string
protocol version is accepted and readies the session. -/
theorem c10_absent_vs_object_params_witness :
    (handleInitialize NewMCPServer none
        (some (.obj [("protocolVersion", .str "2024-11-05")]))).1.error = none
    ∧ ((handleInitialize NewMCPServer none
        (some (.obj [("protocolVersion", .str "2024-11-05")]))).2).initialized = true :=
  (c10_absent_vs_object_params NewMCPServer none).2.2
    [("protocolVersion", .str "2024-11-05")] rfl

/-- C1 (code-bug evidence): the dispatcher of the second program in
`src/unnamed/part_000` (its `tools/list` and `tools/call` arms are lines
473-500) has no initialization gate — on a fresh server, before any
`initialize`, `tools/list` returns the tool-list result and `tools/call`
returns the store-list result, each with no error, instead of the
-32002 "Server not initialized" error the claim requires; the main.go
dispatcher at the same point does return exactly that error. -/
theorem c1_ungated_dispatcher_bug :
    (v2HandleRequest NewMCPServer
        { jsonrpc := "2.0", id := some (.num 2), method := "tools/list", params := none }).1
      = { jsonrpc := "2.0", id := some (.num 2)
          result := some (.toolsList
            { tools := [
                { name := "list_indian_stores"
                  description := "List popular Indian online stores"
                  inputSchema := { type := "object" } }] })
          error := none }
    ∧ (v2HandleRequest NewMCPServer
        { jsonrpc := "2.0", id := some (.num 3), method := "tools/call", params := none }).1
      = { jsonrpc := "2.0", id := some (.num 3)
          result := some (.callTool
            { content := [
                { type := "text"
                  text := "Flipkart, Amazon India, Reliance Digital, Myntra, Snapdeal, Tata CLiQ" }] })
          error := none }
    ∧ (handleRequest NewMCPServer
        { jsonrpc := "2.0", id := some (.num 2), method := "tools/list", params := none }).1
      = sendError (some (.num 2)) (-32002) "Server not initialized" none :=
  ⟨rfl, rfl, rfl⟩
